import Mathlib

/-!
Shallow embedding of the `demo` Python package
(`apps/indexing/src/demo/{foo,bar,__init__}.py` and
`apps/indexing/src/demo/package/{geometry,algebra}.py`).

Python `int` is modelled as `ℤ` (Python integers are arbitrary precision),
`str` as `String`, and the floating-point functions of `geometry.py` and
`algebra.py` are modelled under exact arithmetic over `ℝ`/`ℂ`.
Besides the value-level functions, a small expression AST records the
bodies of the demo functions so that call-site claims about the call
graph (which call expressions occur in which enclosing symbol) can be
stated and decided.
-/

namespace Demo

/-! ## foo.py -/

/-- `foo.py`: `def _increment(y: int) -> int: return y + 1`. -/
def _increment (y : ℤ) : ℤ := y + 1

/-- `foo.py`: `def foo(x: int) -> int: return _increment(x)`. -/
def foo (x : ℤ) : ℤ := _increment x

/-! ## bar.py -/

/-- `bar.py`: `def double_foo(x: int) -> int: return foo(x) * 2`. -/
def double_foo (x : ℤ) : ℤ := foo x * 2

/-- `bar.py`: `def triple_foo(x: int) -> int: return double_foo(x) + foo(x)`. -/
def triple_foo (x : ℤ) : ℤ := double_foo x + foo x

/-- `bar.py`: `def _format_greeting(name: str) -> str: return f"Hello, {name}!"`. -/
def _format_greeting (name : String) : String := "Hello, " ++ name ++ "!"

/-- `bar.py`: `class Greeter` with the single attribute `name` set by
`__init__(self, name)`. -/
structure Greeter where
  name : String
deriving DecidableEq, Repr

/-- `bar.py`: method `Greeter.greet(self) -> str: return _format_greeting(self.name)`. -/
def Greeter.greet (g : Greeter) : String := _format_greeting g.name

/-! ## Module-level state for the frame claim

`Greeter.greet` only reads `self.name` and calls the module-level binding
`_format_greeting`; it contains no assignment.  To state the frame claim we
run the method against an explicit state: the receiver object together with
the module-level bindings of `bar.py` that the body can see.  The body is
translated statement by statement (it is a single `return`), threading the
state through unchanged because no statement writes to it. -/

/-- The module-level bindings of `bar.py` visible from `Greeter.greet`
(the body references only `_format_greeting`). -/
structure BarModuleState where
  format_greeting_binding : String → String

/-- The state of `bar.py` right after import: `_format_greeting` is bound to
the function defined in the module. -/
def barModuleInit : BarModuleState :=
  { format_greeting_binding := _format_greeting }

/-- Stateful run of `Greeter.greet`: the body `return _format_greeting(self.name)`
evaluates the call and returns; it performs no write, so the receiver and the
module state are returned as they were. -/
def Greeter.greet_run (g : Greeter) (m : BarModuleState) :
    String × Greeter × BarModuleState :=
  (m.format_greeting_binding g.name, g, m)

/-! ## __init__.py re-exports

`__init__.py` executes `from .foo import foo` and
`from .bar import double_foo, Greeter`: each statement binds the package-level
name to the very object defined in the source module. -/

/-- `__init__.py`: the package-level binding `demo.foo` created by
`from .foo import foo`. -/
def demo_foo : ℤ → ℤ := foo

/-- `__init__.py`: the package-level binding `demo.double_foo` created by
`from .bar import double_foo, Greeter`. -/
def demo_double_foo : ℤ → ℤ := double_foo

/-- `__init__.py`: the package-level binding `demo.Greeter` created by
`from .bar import double_foo, Greeter` (the class object, i.e. its
constructor). -/
def demo_Greeter : String → Greeter := Greeter.mk

/-- `__init__.py`: `__all__ = ["foo", "double_foo", "Greeter", "package"]`. -/
def demo_all : List String := ["foo", "double_foo", "Greeter", "package"]

/-! ## Expression AST for the call-site claims

A minimal AST covering the bodies occurring in `foo.py` and `bar.py`.
Every call in the demo has exactly one argument, so `call` takes a single
argument expression. -/

/-- Python expressions as they occur in the demo sources. -/
inductive PyExpr where
  | var (name : String)
  | intLit (n : ℤ)
  | strLit (s : String)
  | attr (obj : PyExpr) (field : String)
  | call (callee : String) (arg : PyExpr)
  | add (e₁ e₂ : PyExpr)
  | mul (e₁ e₂ : PyExpr)
deriving DecidableEq, Repr

/-- The callee names of all call expressions of an expression, in
left-to-right source order. -/
def PyExpr.callNames : PyExpr → List String
  | .var _ => []
  | .intLit _ => []
  | .strLit _ => []
  | .attr obj _ => obj.callNames
  | .call callee arg => callee :: arg.callNames
  | .add e₁ e₂ => e₁.callNames ++ e₂.callNames
  | .mul e₁ e₂ => e₁.callNames ++ e₂.callNames

/-- The call subexpressions of an expression, in left-to-right source order
(a nested call appears after the call enclosing it). -/
def PyExpr.callExprs : PyExpr → List PyExpr
  | .var _ => []
  | .intLit _ => []
  | .strLit _ => []
  | .attr obj _ => obj.callExprs
  | .call callee arg => .call callee arg :: arg.callExprs
  | .add e₁ e₂ => e₁.callExprs ++ e₂.callExprs
  | .mul e₁ e₂ => e₁.callExprs ++ e₂.callExprs

/-- Body of `_increment`: `y + 1`. -/
def _increment_body : PyExpr := .add (.var "y") (.intLit 1)

/-- Body of `foo`: `_increment(x)`. -/
def foo_body : PyExpr := .call "_increment" (.var "x")

/-- Body of `double_foo`: `foo(x) * 2`. -/
def double_foo_body : PyExpr := .mul (.call "foo" (.var "x")) (.intLit 2)

/-- Body of `triple_foo`: `double_foo(x) + foo(x)`. -/
def triple_foo_body : PyExpr := .add (.call "double_foo" (.var "x")) (.call "foo" (.var "x"))

/-- Body of `_format_greeting`: the f-string `f"Hello, {name}!"`, i.e. the
concatenation `"Hello, " + name + "!"`. -/
def _format_greeting_body : PyExpr :=
  .add (.add (.strLit "Hello, ") (.var "name")) (.strLit "!")

/-- Body of `Greeter.greet`: `_format_greeting(self.name)`. -/
def greet_body : PyExpr := .call "_format_greeting" (.attr (.var "self") "name")

/-- The function/method definitions of `bar.py` with their fully-qualified
names (module-relative) and bodies, in source order. -/
def bar_defs : List (String × PyExpr) :=
  [("double_foo", double_foo_body),
   ("triple_foo", triple_foo_body),
   ("_format_greeting", _format_greeting_body),
   ("Greeter.greet", greet_body)]

/-- One record per call expression: (enclosing symbol, callee name), in
source order, as the call-graph builder would extract them. -/
def callSites (defs : List (String × PyExpr)) : List (String × String) :=
  defs.flatMap fun p => (p.2.callNames).map fun c => (p.1, c)

/-! ## package/geometry.py (exact arithmetic over ℝ) -/

/-- `geometry.py`: `def area_circle(radius): return math.pi * radius ** 2`,
with `math.pi` modelled as the exact constant `π`. -/
noncomputable def area_circle (radius : ℝ) : ℝ := Real.pi * radius ^ 2

/-- `geometry.py`: `def perimeter_rectangle(width, height): return 2 * (width + height)`. -/
def perimeter_rectangle (width height : ℝ) : ℝ := 2 * (width + height)

/-! ## package/algebra.py (exact arithmetic over ℝ/ℂ) -/

/-- `algebra.py`: `solve_quadratic(a, b, c)` under exact arithmetic.
`discriminant = b ** 2 - 4 * a * c`;
`sqrt_disc = math.sqrt(discriminant) if discriminant >= 0 else math.sqrt(-discriminant) * 1j`;
`root1 = (-b + sqrt_disc) / (2 * a)`; `root2 = (-b - sqrt_disc) / (2 * a)`. -/
noncomputable def solve_quadratic (a b c : ℝ) : ℂ × ℂ :=
  let discriminant : ℝ := b ^ 2 - 4 * a * c
  let sqrt_disc : ℂ :=
    if discriminant ≥ 0 then (Real.sqrt discriminant : ℂ)
    else (Real.sqrt (-discriminant) : ℂ) * Complex.I
  let root1 : ℂ := (-(b : ℂ) + sqrt_disc) / (2 * (a : ℂ))
  let root2 : ℂ := (-(b : ℂ) - sqrt_disc) / (2 * (a : ℂ))
  (root1, root2)

/-- Run of `solve_quadratic` with Python division semantics made explicit:
the two divisions by `2 * a` are unguarded in the source, so when `2 * a = 0`
the run fails with the language's `ZeroDivisionError` (modelled as `none`);
otherwise it returns the pair of roots normally. -/
noncomputable def solve_quadratic_run (a b c : ℝ) : Option (ℂ × ℂ) :=
  if 2 * a = 0 then none else some (solve_quadratic a b c)

end Demo

/-! ## Theorems for the claims -/

namespace Demo

/-- Any `s` with `s ^ 2 = B ^ 2 - 4 * A * C` yields a root `(-B + s) / (2 * A)`
of the quadratic `A * X ^ 2 + B * X + C`. -/
lemma quad_root_eval (A B C s : ℂ) (hA : A ≠ 0) (hs : s ^ 2 = B ^ 2 - 4 * A * C) :
    A * ((-B + s) / (2 * A)) ^ 2 + B * ((-B + s) / (2 * A)) + C = 0 := by
  have h2 : (2 : ℂ) * A ≠ 0 := mul_ne_zero two_ne_zero hA
  field_simp
  linear_combination (2 * A ^ 2) * hs

/-- The `sqrt_disc` expression of `solve_quadratic` squares to the
discriminant, in both branches of its conditional. -/
lemma sqrt_disc_sq (a b c : ℝ) :
    (if b ^ 2 - 4 * a * c ≥ 0 then ((Real.sqrt (b ^ 2 - 4 * a * c) : ℝ) : ℂ)
     else ((Real.sqrt (-(b ^ 2 - 4 * a * c)) : ℝ) : ℂ) * Complex.I) ^ 2
      = ((b : ℂ)) ^ 2 - 4 * a * c := by
  by_cases hD : b ^ 2 - 4 * a * c ≥ 0
  · rw [if_pos hD]
    rw [← Complex.ofReal_pow, Real.sq_sqrt hD]
    push_cast
    ring
  · rw [if_neg hD]
    have h1 : (0 : ℝ) ≤ -(b ^ 2 - 4 * a * c) := by linarith [lt_of_not_ge hD]
    have h2 : (((Real.sqrt (-(b ^ 2 - 4 * a * c)) : ℝ) : ℂ)) ^ 2
        = ((-(b ^ 2 - 4 * a * c) : ℝ) : ℂ) := by
      rw [← Complex.ofReal_pow, Real.sq_sqrt h1]
    rw [mul_pow, h2, Complex.I_sq]
    push_cast
    ring

/-- C1: for every integer `y`, `_increment y = y + 1`; for every integer `x`,
`foo x = _increment x`; hence `foo x = x + 1`. -/
theorem foo_increments (y x : ℤ) :
    _increment y = y + 1 ∧ foo x = _increment x ∧ foo x = x + 1 :=
  ⟨rfl, rfl, rfl⟩

/-- C2: for every integer `x`, `double_foo x = foo x * 2 = 2 * (x + 1)`;
in particular `double_foo 3 = 8` as its docstring example states. -/
theorem double_foo_spec (x : ℤ) :
    double_foo x = foo x * 2 ∧ double_foo x = 2 * (x + 1) ∧ double_foo 3 = 8 :=
  ⟨rfl, by unfold double_foo foo _increment; ring, by decide⟩

/-- C3: for every integer `x`, `triple_foo x = double_foo x + foo x = 3 * (x + 1)`,
the body of `triple_foo` contains exactly the two call expressions
`double_foo(x)` and `foo(x)`, and the nested call chain
`triple_foo → double_foo → foo → _increment` holds body by body. -/
theorem triple_foo_spec (x : ℤ) :
    (triple_foo x = double_foo x + foo x ∧ triple_foo x = 3 * (x + 1)) ∧
    triple_foo_body.callExprs
      = [.call "double_foo" (.var "x"), .call "foo" (.var "x")] ∧
    "double_foo" ∈ triple_foo_body.callNames ∧
    "foo" ∈ double_foo_body.callNames ∧
    "_increment" ∈ foo_body.callNames :=
  ⟨⟨rfl, by unfold triple_foo double_foo foo _increment; ring⟩,
   by decide, by decide, by decide, by decide⟩

/-- C4: for every string `name`, `(Greeter.mk name).greet` returns
`_format_greeting name`, which is `"Hello, " ++ name ++ "!"`; and among the
call sites of `bar.py` the (unique) call to `_format_greeting` has enclosing
symbol `Greeter.greet`, not module scope. -/
theorem greeter_greet_spec (name : String) :
    (Greeter.mk name).greet = _format_greeting name ∧
    _format_greeting name = "Hello, " ++ name ++ "!" ∧
    (callSites bar_defs).filter (fun p => p.2 == "_format_greeting") =
      [("Greeter.greet", "_format_greeting")] :=
  ⟨rfl, rfl, by decide⟩

/-- C5: the package-level names `foo`, `double_foo` and `Greeter` re-exported
by `__init__.py` (and listed in `__all__`) are propositionally equal to the
original definitions in `foo.py` and `bar.py`; in particular the re-exported
`foo` agrees with `foo.py`'s `foo` on every input. -/
theorem reexports_are_originals (x : ℤ) :
    demo_foo = foo ∧ demo_double_foo = double_foo ∧ demo_Greeter = Greeter.mk ∧
    demo_foo x = foo x ∧
    "foo" ∈ demo_all ∧ "double_foo" ∈ demo_all ∧ "Greeter" ∈ demo_all :=
  ⟨rfl, rfl, rfl, rfl, by decide, by decide, by decide⟩

/-- C6: for all real coefficients `a`, `b`, `c` with `a ≠ 0`, under exact
arithmetic each of the two values returned by `solve_quadratic a b c`
satisfies `a * r ^ 2 + b * r + c = 0`; when the discriminant
`b ^ 2 - 4 * a * c` is non-negative both roots are real (imaginary part
zero), and when it is negative the roots are the complex pair
`(-b ± i * sqrt (4 * a * c - b ^ 2)) / (2 * a)`. -/
theorem solve_quadratic_spec (a b c : ℝ) (ha : a ≠ 0) :
    ((a : ℂ) * (solve_quadratic a b c).1 ^ 2 + b * (solve_quadratic a b c).1 + c = 0 ∧
     (a : ℂ) * (solve_quadratic a b c).2 ^ 2 + b * (solve_quadratic a b c).2 + c = 0) ∧
    (0 ≤ b ^ 2 - 4 * a * c →
      (solve_quadratic a b c).1.im = 0 ∧ (solve_quadratic a b c).2.im = 0) ∧
    (b ^ 2 - 4 * a * c < 0 →
      (solve_quadratic a b c).1
        = (-(b : ℂ) + (Real.sqrt (4 * a * c - b ^ 2) : ℂ) * Complex.I) / (2 * a) ∧
      (solve_quadratic a b c).2
        = (-(b : ℂ) - (Real.sqrt (4 * a * c - b ^ 2) : ℂ) * Complex.I) / (2 * a)) := by
  have hA : (a : ℂ) ≠ 0 := Complex.ofReal_ne_zero.mpr ha
  have hs := sqrt_disc_sq a b c
  set s : ℂ := if b ^ 2 - 4 * a * c ≥ 0 then ((Real.sqrt (b ^ 2 - 4 * a * c) : ℝ) : ℂ)
     else ((Real.sqrt (-(b ^ 2 - 4 * a * c)) : ℝ) : ℂ) * Complex.I with hsdef
  have h1 : (solve_quadratic a b c).1 = (-(b : ℂ) + s) / (2 * a) := rfl
  have h2 : (solve_quadratic a b c).2 = (-(b : ℂ) - s) / (2 * a) := rfl
  refine ⟨⟨?_, ?_⟩, ?_, ?_⟩
  · rw [h1]; exact quad_root_eval a b c s hA hs
  · rw [h2]
    have hrw : (-(b : ℂ) - s) = (-(b : ℂ) + (-s)) := by ring
    rw [hrw]
    exact quad_root_eval a b c (-s) hA (by rw [neg_pow]; simpa using hs)
  · intro hD
    have hsv : s = ((Real.sqrt (b ^ 2 - 4 * a * c) : ℝ) : ℂ) := by
      rw [hsdef, if_pos hD]
    constructor
    · rw [h1, hsv]
      have hcast : (-(b : ℂ) + ((Real.sqrt (b ^ 2 - 4 * a * c) : ℝ) : ℂ)) / (2 * (a : ℂ))
          = (((-b + Real.sqrt (b ^ 2 - 4 * a * c)) / (2 * a) : ℝ) : ℂ) := by
        push_cast; ring
      rw [hcast, Complex.ofReal_im]
    · rw [h2, hsv]
      have hcast : (-(b : ℂ) - ((Real.sqrt (b ^ 2 - 4 * a * c) : ℝ) : ℂ)) / (2 * (a : ℂ))
          = (((-b - Real.sqrt (b ^ 2 - 4 * a * c)) / (2 * a) : ℝ) : ℂ) := by
        push_cast; ring
      rw [hcast, Complex.ofReal_im]
  · intro hD
    have hneg : ¬ (b ^ 2 - 4 * a * c ≥ 0) := not_le.mpr hD
    have harg : -(b ^ 2 - 4 * a * c) = 4 * a * c - b ^ 2 := by ring
    have hsv : s = ((Real.sqrt (4 * a * c - b ^ 2) : ℝ) : ℂ) * Complex.I := by
      rw [hsdef, if_neg hneg, harg]
    exact ⟨by rw [h1, hsv], by rw [h2, hsv]⟩

/-- Witness for C6: at `a = 1`, `b = 0`, `c = -4` the hypothesis `a ≠ 0`
holds and the theorem applies. -/
theorem solve_quadratic_spec_witness :
    (1 : ℝ) ≠ 0 ∧
    ((((1 : ℝ) : ℂ) * (solve_quadratic 1 0 (-4)).1 ^ 2 + ((0 : ℝ) : ℂ) * (solve_quadratic 1 0 (-4)).1 + ((-4 : ℝ) : ℂ) = 0 ∧
      ((1 : ℝ) : ℂ) * (solve_quadratic 1 0 (-4)).2 ^ 2 + ((0 : ℝ) : ℂ) * (solve_quadratic 1 0 (-4)).2 + ((-4 : ℝ) : ℂ) = 0) ∧
     (0 ≤ (0 : ℝ) ^ 2 - 4 * 1 * (-4) →
       (solve_quadratic 1 0 (-4)).1.im = 0 ∧ (solve_quadratic 1 0 (-4)).2.im = 0) ∧
     ((0 : ℝ) ^ 2 - 4 * 1 * (-4) < 0 →
       (solve_quadratic 1 0 (-4)).1
         = (-((0 : ℝ) : ℂ) + (Real.sqrt (4 * 1 * (-4) - (0 : ℝ) ^ 2) : ℂ) * Complex.I) / (2 * ((1 : ℝ) : ℂ)) ∧
       (solve_quadratic 1 0 (-4)).2
         = (-((0 : ℝ) : ℂ) - (Real.sqrt (4 * 1 * (-4) - (0 : ℝ) ^ 2) : ℂ) * Complex.I) / (2 * ((1 : ℝ) : ℂ)))) :=
  ⟨by norm_num, solve_quadratic_spec 1 0 (-4) (by norm_num)⟩

/-- C7: the divisions of `solve_quadratic` by `2 * a` are unguarded, so at
`a = 0` the run fails with the division-by-zero error (modelled as `none`)
for every `b`, `c`, and for every `a ≠ 0` it returns a value normally. -/
theorem solve_quadratic_run_spec :
    (∀ b c : ℝ, solve_quadratic_run 0 b c = none) ∧
    (∀ a b c : ℝ, a ≠ 0 → ∃ p, solve_quadratic_run a b c = some p) := by
  constructor
  · intro b c
    simp [solve_quadratic_run]
  · intro a b c ha
    exact ⟨solve_quadratic a b c, if_neg (by simpa using ha)⟩

/-- Witness for C7: `solve_quadratic_run` fails at `a = 0` and succeeds at the
concrete non-zero coefficient `a = 1`. -/
theorem solve_quadratic_run_spec_witness :
    solve_quadratic_run 0 1 2 = none ∧
    ((1 : ℝ) ≠ 0 ∧ ∃ p, solve_quadratic_run 1 0 (-4) = some p) :=
  ⟨solve_quadratic_run_spec.1 1 2, by norm_num,
   solve_quadratic_run_spec.2 1 0 (-4) (by norm_num)⟩

/-- C8: for every radius `r`, `area_circle r` is `π * r ^ 2`, the circle-area
formula applied to `r` with the library constant pi. -/
theorem area_circle_spec (r : ℝ) : area_circle r = Real.pi * r ^ 2 := rfl

/-- C9: for all `w` and `h`, `perimeter_rectangle w h = 2 * (w + h)`, and the
function is symmetric in its two arguments. -/
theorem perimeter_rectangle_spec (w h : ℝ) :
    perimeter_rectangle w h = 2 * (w + h) ∧
    perimeter_rectangle w h = perimeter_rectangle h w :=
  ⟨rfl, by unfold perimeter_rectangle; ring⟩

/-- C10: running `Greeter.greet` on a `Greeter` built from `n` leaves the
receiver (hence its `name` attribute) and the module-level bindings unchanged,
and any two runs return the same string; on the initial module state that
string is `_format_greeting n`. -/
theorem greet_frame (n : String) (m : BarModuleState) :
    ((Greeter.mk n).greet_run m).2.1.name = n ∧
    ((Greeter.mk n).greet_run m).2.2 = m ∧
    ((Greeter.mk n).greet_run m).1 =
      (((Greeter.mk n).greet_run m).2.1.greet_run ((Greeter.mk n).greet_run m).2.2).1 ∧
    ((Greeter.mk n).greet_run barModuleInit).1 = _format_greeting n :=
  ⟨rfl, rfl, rfl, rfl⟩

end Demo
